import Mathlib

/-!
A shallow embedding of the request-correlation and middleware-chaining
subsystem of the go-api example: `pkg/middleware/middleware.go`,
`pkg/logger/logger.go`, and the wiring in `main.go`.  Pure data is mirrored
directly; the ambient Go `context.Context` (restricted to the four
correlation keys the code ever stores) becomes an explicit record, the
`http.ResponseWriter` becomes an explicit response state, and the
nondeterministic `uuid.New()` calls become an explicit supply of generated
strings consumed left to right.  Wall-clock durations are abstracted to 0;
the captured stack trace text is abstracted to a fixed placeholder: no claim
inspects either.
-/

namespace GrafanaLogging

/-- Values attached to log fields (the Go `interface{}` values this code
attaches are strings and integers). -/
inductive FieldVal where
  | str (s : String)
  | int (n : Int)
  deriving DecidableEq

/-- zerolog levels used by `logger.go`. -/
inductive Level where
  | debug
  | info
  | warn
  | error
  | fatal
  deriving DecidableEq

/-- One emitted log record: level, message and the ordered field list as
zerolog serializes it (fields are appended in the order they were added,
duplicates are not removed). -/
structure LogEvent where
  level : Level
  msg : String
  fields : List (String × FieldVal)
  deriving DecidableEq

/-- The Go `context.Context`, restricted to the four correlation keys of
`logger.go` (`RequestIDKey`, `TraceIDKey`, `SpanIDKey`, `UserIDKey`).
`context.WithValue` with one of these keys is a field update; `ctx.Value`
is a field read. -/
structure Ctx where
  requestId : Option String := none
  traceId : Option String := none
  spanId : Option String := none
  userId : Option String := none
  deriving DecidableEq

/-- Explicit supply of generated identifier strings: each `uuid.New().String()`
call takes the next element. -/
structure Gen where
  supply : Nat → String
  next : Nat

/-- Consume one generated identifier. -/
def Gen.fresh (g : Gen) : String × Gen :=
  (g.supply g.next, { g with next := g.next + 1 })

/-- State of an `http.ResponseWriter` as the net/http server sees it. -/
structure Response where
  /-- header map; `Header().Set` keeps one value per key -/
  headers : List (String × String) := []
  /-- the committed status: `none` while headers are unsent; the first
  effective `WriteHeader` (or an implicit 200 from `Write`) commits it -/
  status : Option Nat := none
  body : String := ""
  /-- every code ever passed to `WriteHeader`, in order (the middleware
  `responseWriter` wrapper records the last of these as `statusCode`) -/
  writeHeaderArgs : List Nat := []
  /-- Count of `WriteHeader` calls made after the headers were already sent; Go
  ignores them ("http: superfluous response.WriteHeader call") -/
  superfluous : Nat := 0
  deriving DecidableEq

/-- Go `Header().Set`: replace any existing value for the key. -/
def headerSet (r : Response) (k v : String) : Response :=
  { r with headers := r.headers.filter (fun p => p.1 ≠ k) ++ [(k, v)] }

/-- Go `Header().Del`. -/
def headerDel (r : Response) (k : String) : Response :=
  { r with headers := r.headers.filter (fun p => p.1 ≠ k) }

/-- Go `Header().Get` on the response header map (`none` when never set). -/
def headerGet (r : Response) (k : String) : Option String :=
  (r.headers.find? (fun p => p.1 == k)).map Prod.snd

/-- Go `WriteHeader code`: commits the status if headers are unsent, otherwise
the call is superfluous and ignored by net/http. -/
def writeHeader (r : Response) (code : Nat) : Response :=
  match r.status with
  | some _ => { r with writeHeaderArgs := r.writeHeaderArgs ++ [code],
                       superfluous := r.superfluous + 1 }
  | none => { r with writeHeaderArgs := r.writeHeaderArgs ++ [code],
                     status := some code }

/-- Go `Write`: an implicit `WriteHeader(200)` if headers are unsent, then the
bytes are appended to the body. -/
def bodyWrite (r : Response) (s : String) : Response :=
  match r.status with
  | some _ => { r with body := r.body ++ s }
  | none => { r with status := some 200, body := r.body ++ s }

/-- The net/http helper `http.Error(w, msg, code)` as called by `Recovery`. -/
def httpError (r : Response) (msg : String) (code : Nat) : Response :=
  let r := headerDel r "Content-Length"
  let r := headerSet r "Content-Type" "text/plain; charset=utf-8"
  let r := headerSet r "X-Content-Type-Options" "nosniff"
  let r := writeHeader r code
  bodyWrite r (msg ++ "\n")

/-- Result of running a Go handler: a normal return, or a panic carrying
the recovered value. -/
inductive Outcome where
  | normal
  | panicked (v : FieldVal)
  deriving DecidableEq

/-- The request data the middleware reads. -/
structure Request where
  method : String := "GET"
  path : String := "/"
  remoteAddr : String := ""
  userAgent : String := ""
  headers : List (String × String) := []
  ctx : Ctx := {}
  deriving DecidableEq

/-- Go `r.Header.Get(k)`: the empty string when the header is absent. -/
def Request.headerGetStr (req : Request) (k : String) : String :=
  ((req.headers.find? (fun p => p.1 == k)).map Prod.snd).getD ""

/-- The `statusCode` field of the middleware `responseWriter` wrapper after
the inner handler ran: the last `WriteHeader` argument seen while the
wrapper was installed (i.e. after position `before` in the call list),
defaulting to the initial 200. -/
def wrapperStatus (before : Nat) (r : Response) : Nat :=
  ((r.writeHeaderArgs.drop before).getLast?).getD 200

/-- One zerolog context entry as `logger.WithContext` adds it: the key is
added only when the context value is present and non-empty. -/
def ctxField (key : String) (v : Option String) : List (String × FieldVal) :=
  match v with
  | some s => if s = "" then [] else [(key, FieldVal.str s)]
  | none => []

/-- Source `logger.WithContext` (logger.go:89-106): the correlation fields added to
the zerolog context, in the order the code adds them. -/
def contextFields (c : Ctx) : List (String × FieldVal) :=
  ctxField "request_id" c.requestId ++ ctxField "trace_id" c.traceId ++
    ctxField "span_id" c.spanId ++ ctxField "user_id" c.userId

/-- The record produced by `l.WithFields(ctx, fields)` followed by
`.<level>().Msg(msg)` (logger.go:176-182): zerolog appends the
caller-supplied fields after the context fields, without removing
duplicate keys. -/
def withFieldsEvent (c : Ctx) (caller : List (String × FieldVal))
    (level : Level) (msg : String) : LogEvent :=
  { level := level, msg := msg, fields := contextFields c ++ caller }

/-- First occurrence of a key in a serialized record. -/
def firstField : List (String × FieldVal) → String → Option FieldVal
  | [], _ => none
  | p :: rest, k => if p.1 = k then some p.2 else firstField rest k

/-- The value a JSON consumer sees for a key of the serialized record: with
duplicate keys in one JSON object, the last occurrence wins (Go
`encoding/json` and ECMA-404 consumers alike). -/
def effectiveField (fields : List (String × FieldVal)) (k : String) :
    Option FieldVal :=
  firstField fields.reverse k

/-- Source `logger.ExtractTraceContext` (logger.go:198-212): keep a non-empty
inbound request id / trace id, generate otherwise; the span id for this hop
is always generated.  The `[:16]` and `[:8]` truncations of the generated
UUID strings are mirrored by `String.take`. -/
def ExtractTraceContext (c : Ctx) (requestID traceID : String) (g : Gen) :
    Ctx × Gen :=
  let rp := if requestID = "" then g.fresh else (requestID, g)
  let tp := if traceID = "" then
      let q := rp.2.fresh
      (q.1.take 16, q.2)
    else (traceID, rp.2)
  let sp := tp.2.fresh
  ({ c with requestId := some rp.1, traceId := some tp.1,
            spanId := some (sp.1.take 8) }, sp.2)

/-- Source `logger.GetRequestID` (logger.go:215-220). -/
def GetRequestID (c : Ctx) : String := c.requestId.getD ""

/-- Source `logger.GetTraceID` (logger.go:223-228). -/
def GetTraceID (c : Ctx) : String := c.traceId.getD ""

/-- Source `logger.GetSpanID` (logger.go:231-236). -/
def GetSpanID (c : Ctx) : String := c.spanId.getD ""

/-- Source `logger.WithSpanID` (logger.go:239-241). -/
def WithSpanID (c : Ctx) (spanID : String) : Ctx :=
  { c with spanId := some spanID }

/-- What `tracing.GetTraceID` / `tracing.GetSpanID` (tracing.go:111-126)
return for the active OpenTelemetry span: the id string, or `""` when the
span context has no id (tracing disabled, or no span started). -/
structure OtelSpanCtx where
  traceId : String := ""
  spanId : String := ""
  deriving DecidableEq

/-- Source `middleware.Chain` (middleware.go:177-185): the Go loop walks the
interceptor list from the last entry down to index 0, wrapping the
accumulated handler at each step. -/
def Chain {H : Type} (middlewares : List (H → H)) (final : H) : H :=
  middlewares.reverse.foldl (fun acc mw => mw acc) final

/-- The composition the words of the spec describe for the Middleware Composer:
interceptor1 applied to interceptor2 applied to ... applied to the
terminal handler. -/
def nestedApply {H : Type} : List (H → H) → H → H
  | [], t => t
  | mw :: rest, t => mw (nestedApply rest t)

/-- The two lines of middleware.go:203-209 that pick the trace id
`TracedLogging` works with: the trace id of the OTel span when the span has one,
falling back to the inbound `X-Trace-ID` header otherwise. -/
def resolvedOtelTraceID (otel : OtelSpanCtx) (req : Request) : String :=
  if otel.traceId = "" then req.headerGetStr "X-Trace-ID" else otel.traceId

/-- What one `TracedLogging` run leaves behind. -/
structure TracedResult where
  resp : Response
  ctx : Ctx
  log : List LogEvent
  outcome : Outcome
  gen : Gen

/-- middleware.go:211-218: the context `TracedLogging` hands to the
wrapped handler — `ExtractTraceContext` on the inbound `X-Request-ID` and
the resolved trace id, the span id then overridden with the OTel span id
when one is present. -/
def tracedCtx (otel : OtelSpanCtx) (req : Request) (g : Gen) : Ctx :=
  let c := (ExtractTraceContext req.ctx (req.headerGetStr "X-Request-ID")
    (resolvedOtelTraceID otel req) g).1
  if otel.spanId ≠ "" then WithSpanID c otel.spanId else c

/-- middleware.go:222-227: the response headers `TracedLogging` stamps
before running the wrapped handler.  Note the `X-Trace-ID` header carries
`otelTraceID` — the pre-resolution value — not the trace id held in the context. -/
def tracedStamp (otel : OtelSpanCtx) (req : Request) (g : Gen)
    (resp : Response) : Response :=
  let c := tracedCtx otel req g
  let resp := headerSet resp "X-Request-ID" (GetRequestID c)
  let resp := headerSet resp "X-Trace-ID" (resolvedOtelTraceID otel req)
  if otel.spanId ≠ "" then headerSet resp "X-Span-ID" otel.spanId else resp

/-- middleware.go:233-255: the tail of `TracedLogging` after
`next.ServeHTTP` — on a panic the completion log line does not run and
the panic propagates; on normal return one info event with the request
fields is appended.  `duration_ms` is abstracted to 0. -/
def tracedFinish (req : Request) (c : Ctx) (otelTraceID otelSpanID : String)
    (log : List LogEvent) (g2 : Gen) (before : Nat)
    (ro : Response × Outcome) : TracedResult :=
  match ro.2 with
  | .panicked v =>
      { resp := ro.1, ctx := c, log := log, outcome := .panicked v,
        gen := g2 }
  | .normal =>
      let ev := withFieldsEvent c
        [("method", .str req.method), ("path", .str req.path),
         ("status", .int (wrapperStatus before ro.1)),
         ("duration_ms", .int 0),
         ("remote_addr", .str req.remoteAddr),
         ("user_agent", .str req.userAgent),
         ("trace_id", .str otelTraceID), ("span_id", .str otelSpanID)]
        .info "HTTP request completed"
      { resp := ro.1, ctx := c, log := log ++ [ev], outcome := .normal,
        gen := g2 }

/-- Source `middleware.TracedLogging` (middleware.go:197-258), assembled from the
three faithful pieces above: resolve the context, stamp the response
headers, run the wrapped handler on the enriched context, finish. -/
def TracedLogging (otel : OtelSpanCtx) (req : Request)
    (next : Ctx → Response → Response × Outcome)
    (resp : Response) (log : List LogEvent) (g : Gen) : TracedResult :=
  let c := tracedCtx otel req g
  let stamped := tracedStamp otel req g resp
  tracedFinish req c (resolvedOtelTraceID otel req) otel.spanId log
    (ExtractTraceContext req.ctx (req.headerGetStr "X-Request-ID")
      (resolvedOtelTraceID otel req) g).2
    stamped.writeHeaderArgs.length (next c stamped)

/-- A handler that writes nothing and returns normally; used to observe
what the resolver part of `TracedLogging` alone does. -/
def idHandler : Ctx → Response → Response × Outcome :=
  fun _ r => (r, .normal)

/-- One resolver hop: `TracedLogging` around the inert handler, started on
a fresh response writer and an empty log. -/
def resolverHop (otel : OtelSpanCtx) (req : Request) (g : Gen) : TracedResult :=
  TracedLogging otel req idHandler {} [] g

/-- A concrete identifier supply for concrete runs. -/
def demoGen : Gen := { supply := fun n => "u" ++ toString n, next := 0 }

/-- What one `Recovery` run leaves behind: the response writer, the
process-wide log sink, the `panic_recoveries_total` counter, and whether
the middleware itself returned normally to its caller. -/
structure RecoveryResult where
  resp : Response
  log : List LogEvent
  panicRecoveries : Nat
  outcome : Outcome
  deriving DecidableEq

/-- Source `middleware.Recovery` (middleware.go:143-175).  `metricsNil` models a
nil `*Metrics` argument (the `m != nil` check at line 163).  The deferred
function recovers the panic, logs one error event built from the request
context, increments the counter when metrics are present, and calls
`http.Error(w, "Internal Server Error", 500)` unconditionally; the
middleware then returns normally.  The order of the fields of the Go map
literal is fixed here (Go map iteration order is unspecified); the stack
trace text is a placeholder. -/
def Recovery (metricsNil : Bool) (req : Request)
    (next : Response → Response × Outcome)
    (resp : Response) (log : List LogEvent) (panicRecoveries : Nat) :
    RecoveryResult :=
  let ro := next resp
  match ro.2 with
  | .normal =>
      { resp := ro.1, log := log, panicRecoveries := panicRecoveries,
        outcome := .normal }
  | .panicked v =>
      let ev := withFieldsEvent req.ctx
        [("method", .str req.method), ("path", .str req.path),
         ("panic", v), ("stacktrace", .str "goroutine stack")]
        .error "Panic recovered"
      let pr := if metricsNil then panicRecoveries else panicRecoveries + 1
      { resp := httpError ro.1 "Internal Server Error" 500,
        log := log ++ [ev], panicRecoveries := pr, outcome := .normal }

/-- One gauge operation on `http_requests_in_flight`. -/
inductive GaugeOp where
  | inc
  | dec
  deriving DecidableEq

/-- The slice of the Prometheus registry the `MetricsMiddleware` touches.
Counter increments and histogram observations are kept as event lists so
"exactly once" is the length of what a run appends. -/
structure MetricsState where
  /-- one entry per `RequestsTotal...Inc()`, with its `(method, path,
  status)` label values -/
  totals : List (String × String × String) := []
  /-- one entry per `RequestDuration...Observe(...)`, with its `(method,
  path)` label values -/
  durations : List (String × String) := []
  inFlight : Int := 0
  gaugeOps : List GaugeOp := []
  deriving DecidableEq

/-- Gauge increment `RequestsInFlight.Inc()`. -/
def MetricsState.incInFlight (m : MetricsState) : MetricsState :=
  { m with inFlight := m.inFlight + 1, gaugeOps := m.gaugeOps ++ [.inc] }

/-- Gauge decrement `RequestsInFlight.Dec()`. -/
def MetricsState.decInFlight (m : MetricsState) : MetricsState :=
  { m with inFlight := m.inFlight - 1, gaugeOps := m.gaugeOps ++ [.dec] }

/-- Source `middleware.MetricsMiddleware` (middleware.go:118-140).  The gauge is
incremented, the deferred decrement runs on both the normal and the
panicking exit; the counter and histogram lines after `next.ServeHTTP` run
only on normal return, labelling the counter with `fmt.Sprintf("%d",
rw.statusCode)` — the wrapper-observed numeric status code. -/
def MetricsMiddleware (req : Request)
    (next : Response → Response × Outcome)
    (resp : Response) (m : MetricsState) :
    Response × MetricsState × Outcome :=
  let before := resp.writeHeaderArgs.length
  let m := m.incInFlight
  let ro := next resp
  match ro.2 with
  | .panicked v => (ro.1, m.decInFlight, .panicked v)
  | .normal =>
      let status := wrapperStatus before ro.1
      let m := { m with
        totals := m.totals ++ [(req.method, req.path, toString status)] }
      let m := { m with
        durations := m.durations ++ [(req.method, req.path)] }
      (ro.1, m.decInFlight, .normal)

/-- The status label as the words of the spec describe it: a label that
"identifies only the status-code class (e.g. 2xx/4xx/5xx)". -/
def specStatusClass (status : Nat) : String :=
  toString (status / 100) ++ "xx"

/-! Concrete inputs used to exercise the embedded middleware. -/

/-- A handler that commits a 200 header and part of a body, then panics. -/
def partialWriteHandler : Response → Response × Outcome :=
  fun r => (bodyWrite (writeHeader r 200) "partial", .panicked (.str "boom"))

/-- A handler that commits a 201 header and a body, then panics. -/
def partialWriteHandler201 : Response → Response × Outcome :=
  fun r => (bodyWrite (writeHeader r 201) "x", .panicked (.int 7))

/-- A handler that panics without touching the response. -/
def plainPanicHandler : Response → Response × Outcome :=
  fun r => (r, .panicked (.str "boom"))

/-- A handler that sets a 404 status and returns normally. -/
def notFoundHandler : Response → Response × Outcome :=
  fun r => (writeHeader r 404, .normal)

/-- Scenario request of C2: inbound `X-Request-ID: req-42`, no
`X-Trace-ID`. -/
def reqC2 : Request :=
  { method := "GET", path := "/api/hello",
    headers := [("X-Request-ID", "req-42")] }

/-- Scenario run of C2: tracing disabled, inert handler, demo supply. -/
def runC2 : TracedResult := TracedLogging {} reqC2 idHandler {} [] demoGen

/-- Scenario request of C3: a non-empty inbound `X-Trace-ID` header. -/
def reqC3 : Request :=
  { method := "GET", path := "/api/x",
    headers := [("X-Trace-ID", "hdr-1")] }

/-- Scenario run of C3: an active span whose trace id is `00ff`, together
with the inbound header `X-Trace-ID: hdr-1`. -/
def runC3 : TracedResult :=
  TracedLogging { traceId := "00ff", spanId := "span1" } reqC3 idHandler
    {} [] demoGen

/-- The simulated downstream request of the round-trip: its inbound
headers are the values the first hop stamped onto its response. -/
def downstreamReq (res : TracedResult) (req : Request) : Request :=
  { method := req.method, path := req.path,
    headers :=
      [("X-Request-ID", (headerGet res.resp "X-Request-ID").getD ""),
       ("X-Trace-ID", (headerGet res.resp "X-Trace-ID").getD "")] }

/-- First-hop request of C5: tracing disabled, no inbound headers. -/
def reqC5 : Request := { method := "GET", path := "/api/x" }

/-- First hop run of C5. -/
def runC5a : TracedResult := resolverHop {} reqC5 demoGen

/-- Simulated downstream hop of C5, fed the headers stamped by the first hop. -/
def runC5b : TracedResult :=
  resolverHop {} (downstreamReq runC5a reqC5) runC5a.gen

/-- Context of C9: a correlation context holding `request_id = ctx-req`. -/
def ctxC9 : Ctx := { requestId := some "ctx-req" }

/-- Caller-supplied fields of C9: a `request_id` of their own. -/
def callerC9 : List (String × FieldVal) := [("request_id", .str "evil")]

/-- Emitted record of C9. -/
def evC9 : LogEvent := withFieldsEvent ctxC9 callerC9 .info "m"

/-- A plain request with no inbound headers. -/
def reqDemo : Request := { method := "GET", path := "/api/x" }

/-- A constant identifier supply. -/
def constGen : Gen := { supply := fun _ => "zz", next := 0 }

/-- An active-span context whose trace id is `abcd`, with no span id. -/
def otelC5 : OtelSpanCtx := { traceId := "abcd", spanId := "" }

/-- Request of C8. -/
def reqC8 : Request := { method := "GET", path := "/api/users" }

/-! Helper lemmas. -/

theorem Chain_cons {H : Type} (mw : H → H) (rest : List (H → H)) (t : H) :
    Chain (mw :: rest) t = mw (Chain rest t) := by
  simp [Chain, List.foldl_append]

theorem firstField_append_some (a b : List (String × FieldVal)) (k : String)
    (v : FieldVal) (h : firstField a k = some v) :
    firstField (a ++ b) k = some v := by
  induction a with
  | nil => simp [firstField] at h
  | cons p rest ih =>
      by_cases hp : p.1 = k
      · simp only [firstField, hp, if_pos] at h
        simp only [List.cons_append, firstField, hp, if_pos]
        exact h
      · simp only [firstField, hp, if_neg, ite_false] at h
        simp only [List.cons_append, firstField, hp, ite_false]
        exact ih h

theorem firstField_append_none (a b : List (String × FieldVal)) (k : String)
    (h : firstField a k = none) :
    firstField (a ++ b) k = firstField b k := by
  induction a with
  | nil => simp
  | cons p rest ih =>
      by_cases hp : p.1 = k
      · simp only [firstField, hp, if_pos] at h
        exact absurd h (by simp)
      · simp only [firstField, hp, ite_false] at h
        simp only [List.cons_append, firstField, hp, ite_false]
        exact ih h

theorem firstField_eq_none (l : List (String × FieldVal)) (k : String)
    (h : ∀ p ∈ l, p.1 ≠ k) : firstField l k = none := by
  induction l with
  | nil => rfl
  | cons p rest ih =>
      simp only [firstField, h p (List.mem_cons_self p rest), ite_false]
      exact ih (fun q hq => h q (List.mem_cons_of_mem p hq))

theorem effectiveField_append_absent (a b : List (String × FieldVal))
    (k : String) (h : ∀ p ∈ b, p.1 ≠ k) :
    effectiveField (a ++ b) k = effectiveField a k := by
  unfold effectiveField
  rw [List.reverse_append]
  exact firstField_append_none _ _ _
    (firstField_eq_none _ _ (fun p hp => h p (List.mem_reverse.mp hp)))

theorem effectiveField_append_present (a b : List (String × FieldVal))
    (k : String) (w : FieldVal) (h : effectiveField b k = some w) :
    effectiveField (a ++ b) k = some w := by
  unfold effectiveField at h ⊢
  rw [List.reverse_append]
  exact firstField_append_some _ _ _ _ h

theorem ctxField_key (key : String) (v : Option String)
    (p : String × FieldVal) (hp : p ∈ ctxField key v) : p.1 = key := by
  rcases v with _ | s
  · simp [ctxField] at hp
  · by_cases hs : s = ""
    · simp [ctxField, hs] at hp
    · simp [ctxField, hs] at hp
      simp [hp]

theorem effectiveField_contextFields_requestId (c : Ctx) (v : String)
    (hv : c.requestId = some v) (hne : v ≠ "") :
    effectiveField (contextFields c) "request_id" = some (FieldVal.str v) := by
  unfold contextFields
  rw [effectiveField_append_absent _ _ _
    (fun p hp => by rw [ctxField_key _ _ _ hp]; decide)]
  rw [effectiveField_append_absent _ _ _
    (fun p hp => by rw [ctxField_key _ _ _ hp]; decide)]
  rw [effectiveField_append_absent _ _ _
    (fun p hp => by rw [ctxField_key _ _ _ hp]; decide)]
  simp [ctxField, hv, hne, effectiveField, firstField]

theorem tracedFinish_ctx (req : Request) (c : Ctx) (t s : String)
    (log : List LogEvent) (g2 : Gen) (b : Nat) (ro : Response × Outcome) :
    (tracedFinish req c t s log g2 b ro).ctx = c := by
  rcases ro with ⟨r, o⟩
  cases o <;> rfl

theorem tracedFinish_gen (req : Request) (c : Ctx) (t s : String)
    (log : List LogEvent) (g2 : Gen) (b : Nat) (ro : Response × Outcome) :
    (tracedFinish req c t s log g2 b ro).gen = g2 := by
  rcases ro with ⟨r, o⟩
  cases o <;> rfl

theorem TracedLogging_ctx (otel : OtelSpanCtx) (req : Request)
    (next : Ctx → Response → Response × Outcome) (resp : Response)
    (log : List LogEvent) (g : Gen) :
    (TracedLogging otel req next resp log g).ctx = tracedCtx otel req g :=
  tracedFinish_ctx _ _ _ _ _ _ _ _

theorem TracedLogging_gen (otel : OtelSpanCtx) (req : Request)
    (next : Ctx → Response → Response × Outcome) (resp : Response)
    (log : List LogEvent) (g : Gen) :
    (TracedLogging otel req next resp log g).gen =
      (ExtractTraceContext req.ctx (req.headerGetStr "X-Request-ID")
        (resolvedOtelTraceID otel req) g).2 :=
  tracedFinish_gen _ _ _ _ _ _ _ _

theorem resolverHop_ctx (otel : OtelSpanCtx) (req : Request) (g : Gen) :
    (resolverHop otel req g).ctx = tracedCtx otel req g :=
  TracedLogging_ctx _ _ _ _ _ _

theorem resolverHop_resp (otel : OtelSpanCtx) (req : Request) (g : Gen) :
    (resolverHop otel req g).resp = tracedStamp otel req g {} := rfl

theorem extract_requestId (c : Ctx) (rI tI : String) (g : Gen) :
    ((ExtractTraceContext c rI tI g).1).requestId =
      some (if rI = "" then g.supply g.next else rI) := by
  unfold ExtractTraceContext Gen.fresh
  by_cases h1 : rI = "" <;> by_cases h2 : tI = "" <;> simp [h1, h2]

theorem extract_traceId_keep (c : Ctx) (rI tI : String) (g : Gen)
    (h : tI ≠ "") :
    ((ExtractTraceContext c rI tI g).1).traceId = some tI := by
  unfold ExtractTraceContext Gen.fresh
  by_cases h1 : rI = "" <;> simp [h1, h]

theorem extract_traceId_fresh (c : Ctx) (rI : String) (g : Gen)
    (h : rI ≠ "") :
    ((ExtractTraceContext c rI "" g).1).traceId =
      some ((g.supply g.next).take 16) := by
  unfold ExtractTraceContext Gen.fresh
  simp [h]

theorem tracedCtx_traceId (otel : OtelSpanCtx) (req : Request) (g : Gen) :
    (tracedCtx otel req g).traceId =
      ((ExtractTraceContext req.ctx (req.headerGetStr "X-Request-ID")
        (resolvedOtelTraceID otel req) g).1).traceId := by
  unfold tracedCtx
  by_cases h : otel.spanId = "" <;> simp [h, WithSpanID]

theorem tracedCtx_requestId (otel : OtelSpanCtx) (req : Request) (g : Gen) :
    (tracedCtx otel req g).requestId =
      ((ExtractTraceContext req.ctx (req.headerGetStr "X-Request-ID")
        (resolvedOtelTraceID otel req) g).1).requestId := by
  unfold tracedCtx
  by_cases h : otel.spanId = "" <;> simp [h, WithSpanID]

theorem tracedStamp_empty_requestId (otel : OtelSpanCtx) (req : Request)
    (g : Gen) :
    headerGet (tracedStamp otel req g {}) "X-Request-ID" =
      some (GetRequestID (tracedCtx otel req g)) := by
  unfold tracedStamp
  by_cases h : otel.spanId = "" <;> simp [h, headerSet, headerGet]

theorem tracedStamp_empty_traceId (otel : OtelSpanCtx) (req : Request)
    (g : Gen) :
    headerGet (tracedStamp otel req g {}) "X-Trace-ID" =
      some (resolvedOtelTraceID otel req) := by
  unfold tracedStamp
  by_cases h : otel.spanId = "" <;> simp [h, headerSet, headerGet]

theorem wrapperStatus_self (r : Response) :
    wrapperStatus r.writeHeaderArgs.length r = 200 := by
  simp [wrapperStatus, List.drop_length]

theorem resolverHop_log (otel : OtelSpanCtx) (req : Request) (g : Gen) :
    (resolverHop otel req g).log =
      [withFieldsEvent (tracedCtx otel req g)
        [("method", .str req.method), ("path", .str req.path),
         ("status", .int 200), ("duration_ms", .int 0),
         ("remote_addr", .str req.remoteAddr),
         ("user_agent", .str req.userAgent),
         ("trace_id", .str (resolvedOtelTraceID otel req)),
         ("span_id", .str otel.spanId)] .info "HTTP request completed"] := by
  unfold resolverHop TracedLogging idHandler tracedFinish
  simp [wrapperStatus_self]

theorem downstreamReq_requestId (res : TracedResult) (req : Request) :
    (downstreamReq res req).headerGetStr "X-Request-ID" =
      (headerGet res.resp "X-Request-ID").getD "" := by
  simp [downstreamReq, Request.headerGetStr]

theorem downstreamReq_traceId (res : TracedResult) (req : Request) :
    (downstreamReq res req).headerGetStr "X-Trace-ID" =
      (headerGet res.resp "X-Trace-ID").getD "" := by
  simp [downstreamReq, Request.headerGetStr]

theorem Recovery_panicked (metricsNil : Bool) (req : Request)
    (next : Response → Response × Outcome) (resp : Response)
    (log : List LogEvent) (pr : Nat) (r1 : Response) (v : FieldVal)
    (hnext : next resp = (r1, .panicked v)) :
    Recovery metricsNil req next resp log pr =
      { resp := httpError r1 "Internal Server Error" 500,
        log := log ++ [withFieldsEvent req.ctx
          [("method", .str req.method), ("path", .str req.path),
           ("panic", v), ("stacktrace", .str "goroutine stack")]
          .error "Panic recovered"],
        panicRecoveries := if metricsNil then pr else pr + 1,
        outcome := .normal } := by
  unfold Recovery
  rw [hnext]

theorem httpError_uncommitted (r : Response) (h : r.status = none)
    (msg : String) (code : Nat) :
    (httpError r msg code).status = some code := by
  simp [httpError, headerDel, headerSet, writeHeader, bodyWrite, h]

theorem httpError_committed (r : Response) (s : Nat) (h : r.status = some s)
    (msg : String) (code : Nat) :
    (httpError r msg code).status = some s ∧
    (httpError r msg code).superfluous = r.superfluous + 1 ∧
    (httpError r msg code).body = r.body ++ (msg ++ "\n") := by
  simp [httpError, headerDel, headerSet, writeHeader, bodyWrite, h]

/-! The claims. -/

/-- C7: the handler `Chain(m1, ..., mn)(t)` is the nested application
m1(m2(...(mn(t)))) described by the spec for the Middleware Composer; in
particular `Chain` of the empty interceptor list is the identity on
handlers. -/
theorem chain_is_nested_application {H : Type}
    (middlewares : List (H → H)) (t : H) :
    Chain middlewares t = nestedApply middlewares t := by
  induction middlewares with
  | nil => rfl
  | cons mw rest ih => rw [Chain_cons, ih]; rfl

/-- C1: counterexample — a handler that commits a 200 header and part of
a body before panicking leaves the response carrying status 200: the
fallback `WriteHeader(500)` inside `http.Error` is superfluous, so the
response does not carry a server-error status as the claim states. -/
theorem C1_counterexample :
    (Recovery false reqDemo partialWriteHandler {} [] 0).resp.status =
      some 200 ∧
    ¬ (Recovery false reqDemo partialWriteHandler {} [] 0).resp.status =
      some 500 := by
  decide

/-- C1 (amended): for every request whose wrapped handler panics, the
Recovery middleware returns normally, records exactly one panic-counter
increment, emits exactly one error-level log event, and the response
carries status 500 provided the handler had not already committed
response headers before panicking. -/
theorem C1_amended (req : Request) (next : Response → Response × Outcome)
    (resp : Response) (log : List LogEvent) (pr : Nat)
    (r1 : Response) (v : FieldVal)
    (hnext : next resp = (r1, .panicked v)) :
    (Recovery false req next resp log pr).outcome = .normal ∧
    (Recovery false req next resp log pr).panicRecoveries = pr + 1 ∧
    (∃ ev, (Recovery false req next resp log pr).log = log ++ [ev] ∧
      ev.level = .error) ∧
    (r1.status = none →
      (Recovery false req next resp log pr).resp.status = some 500) := by
  rw [Recovery_panicked false req next resp log pr r1 v hnext]
  exact ⟨rfl, rfl, ⟨_, rfl, rfl⟩, fun h => httpError_uncommitted r1 h _ _⟩

/-- C1 witness: the amended claim at a handler that panics without
having written anything. -/
theorem C1_witness :
    (Recovery false reqDemo plainPanicHandler {} [] 0).outcome = .normal ∧
    (Recovery false reqDemo plainPanicHandler {} [] 0).panicRecoveries = 1 ∧
    (∃ ev, (Recovery false reqDemo plainPanicHandler {} [] 0).log =
      [] ++ [ev] ∧ ev.level = .error) ∧
    (Recovery false reqDemo plainPanicHandler {} [] 0).resp.status =
      some 500 := by
  obtain ⟨h1, h2, h3, h4⟩ :=
    C1_amended reqDemo plainPanicHandler {} [] 0 {} (.str "boom") rfl
  exact ⟨h1, h2, h3, h4 rfl⟩

/-- C4: counterexample — when the handler has already committed headers
and body before panicking, `Recovery` does not suppress its fallback
write: the superfluous `WriteHeader` count rises to 1, the error text is
appended to the partial body, and no warn-level write-conflict event is
logged. -/
theorem C4_counterexample :
    (Recovery false reqDemo partialWriteHandler {} [] 0).resp.superfluous
      = 1 ∧
    (Recovery false reqDemo partialWriteHandler {} [] 0).resp.body =
      "partial" ++ "Internal Server Error\n" ∧
    ((Recovery false reqDemo partialWriteHandler {} [] 0).log.all
      (fun e => e.level != Level.warn)) = true ∧
    ¬ (Recovery false reqDemo partialWriteHandler {} [] 0).resp.superfluous
      = 0 := by
  decide

/-- C4 (amended): when the wrapped handler panics after committing
response headers, `Recovery` still attempts its fallback error write
unconditionally: the committed status is unchanged, one superfluous
`WriteHeader` call is made, the fallback text is appended to the body,
and the only log event the middleware adds is the error-level panic
event — no write-conflict warning. -/
theorem C4_amended (req : Request) (next : Response → Response × Outcome)
    (resp : Response) (log : List LogEvent) (pr : Nat)
    (r1 : Response) (v : FieldVal) (s : Nat)
    (hnext : next resp = (r1, .panicked v)) (hs : r1.status = some s) :
    (Recovery false req next resp log pr).resp.status = some s ∧
    (Recovery false req next resp log pr).resp.superfluous =
      r1.superfluous + 1 ∧
    (Recovery false req next resp log pr).resp.body =
      r1.body ++ "Internal Server Error\n" ∧
    (∃ ev, (Recovery false req next resp log pr).log = log ++ [ev] ∧
      ev.level = .error) := by
  rw [Recovery_panicked false req next resp log pr r1 v hnext]
  obtain ⟨h1, h2, h3⟩ :=
    httpError_committed r1 s hs "Internal Server Error" 500
  refine ⟨h1, h2, ?_, ⟨_, rfl, rfl⟩⟩
  rw [h3]
  exact congrArg (fun t => r1.body ++ t) (by decide)

/-- C4 witness: the amended claim at the concrete partially-written run. -/
theorem C4_witness :
    (Recovery false reqDemo partialWriteHandler {} [] 0).resp.status =
      some 200 ∧
    (Recovery false reqDemo partialWriteHandler {} [] 0).resp.superfluous
      = 0 + 1 ∧
    (Recovery false reqDemo partialWriteHandler {} [] 0).resp.body =
      "partial" ++ "Internal Server Error\n" ∧
    (∃ ev, (Recovery false reqDemo partialWriteHandler {} [] 0).log =
      [] ++ [ev] ∧ ev.level = .error) :=
  C4_amended reqDemo partialWriteHandler {} [] 0
    (bodyWrite (writeHeader {} 200) "partial") (.str "boom") 200 rfl rfl

/-- C10: counterexample — with a nil `*Metrics`, a handler that commits a
201 response before panicking is still recovered with no counter
increment, but the response keeps status 201: the 500 response is not
written, contrary to the claim. -/
theorem C10_counterexample :
    (Recovery true reqDemo partialWriteHandler201 {} [] 5).outcome =
      .normal ∧
    (Recovery true reqDemo partialWriteHandler201 {} [] 5).panicRecoveries
      = 5 ∧
    (Recovery true reqDemo partialWriteHandler201 {} [] 5).resp.status =
      some 201 ∧
    ¬ (Recovery true reqDemo partialWriteHandler201 {} [] 5).resp.status =
      some 500 := by
  decide

/-- C10 (amended): with a nil `*Metrics` pointer, a panicking handler is
still recovered (the middleware returns normally), exactly one
error-level log event is emitted, no panic-counter increment occurs, and
the 500 response is written provided the handler had not already
committed response headers; the nil handle never causes a secondary
failure. -/
theorem C10_amended (req : Request) (next : Response → Response × Outcome)
    (resp : Response) (log : List LogEvent) (pr : Nat)
    (r1 : Response) (v : FieldVal)
    (hnext : next resp = (r1, .panicked v)) :
    (Recovery true req next resp log pr).outcome = .normal ∧
    (Recovery true req next resp log pr).panicRecoveries = pr ∧
    (∃ ev, (Recovery true req next resp log pr).log = log ++ [ev] ∧
      ev.level = .error) ∧
    (r1.status = none →
      (Recovery true req next resp log pr).resp.status = some 500) := by
  rw [Recovery_panicked true req next resp log pr r1 v hnext]
  exact ⟨rfl, rfl, ⟨_, rfl, rfl⟩, fun h => httpError_uncommitted r1 h _ _⟩

/-- C10 witness: the amended claim at a handler that panics without
writing, under a nil metrics handle. -/
theorem C10_witness :
    (Recovery true reqDemo plainPanicHandler {} [] 5).outcome = .normal ∧
    (Recovery true reqDemo plainPanicHandler {} [] 5).panicRecoveries = 5 ∧
    (∃ ev, (Recovery true reqDemo plainPanicHandler {} [] 5).log =
      [] ++ [ev] ∧ ev.level = .error) ∧
    (Recovery true reqDemo plainPanicHandler {} [] 5).resp.status =
      some 500 := by
  obtain ⟨h1, h2, h3, h4⟩ :=
    C10_amended reqDemo plainPanicHandler {} [] 5 {} (.str "boom") rfl
  exact ⟨h1, h2, h3, h4 rfl⟩

/-- C6: through the metrics middleware the in-flight gauge is incremented
exactly once on entry and decremented exactly once on exit — on the
normal and on the panicking path alike — so it returns to its
pre-request value. -/
theorem inflight_gauge_balanced (req : Request)
    (next : Response → Response × Outcome) (resp : Response)
    (m : MetricsState) :
    ((MetricsMiddleware req next resp m).2.1).inFlight = m.inFlight ∧
    ((MetricsMiddleware req next resp m).2.1).gaugeOps =
      m.gaugeOps ++ [GaugeOp.inc, GaugeOp.dec] := by
  unfold MetricsMiddleware
  rcases hro : next resp with ⟨r1, o⟩
  cases o <;>
    simp [hro, MetricsState.incInFlight, MetricsState.decInFlight]

/-- C8: counterexample — a 404 response is counted with status label
"404", the exact code, not the status-class label "4xx" the claim
requires. -/
theorem C8_counterexample :
    ((MetricsMiddleware reqC8 notFoundHandler {} {}).2.1).totals =
      [("GET", "/api/users", "404")] ∧
    ¬ ((MetricsMiddleware reqC8 notFoundHandler {} {}).2.1).totals =
      [("GET", "/api/users", specStatusClass 404)] := by
  decide

/-- C8 (amended): on every normal return the total-request counter is
incremented exactly once, labelled with the method, the path and the
exact numeric status code observed by the response-writer wrapper (not a
status class), and the duration histogram is observed exactly once with
labels (method, path). -/
theorem C8_amended (req : Request) (next : Response → Response × Outcome)
    (resp : Response) (m : MetricsState) (r1 : Response)
    (hnext : next resp = (r1, .normal)) :
    ((MetricsMiddleware req next resp m).2.1).totals =
      m.totals ++ [(req.method, req.path,
        toString (wrapperStatus resp.writeHeaderArgs.length r1))] ∧
    ((MetricsMiddleware req next resp m).2.1).durations =
      m.durations ++ [(req.method, req.path)] := by
  unfold MetricsMiddleware
  simp [hnext, MetricsState.incInFlight, MetricsState.decInFlight]

/-- C8 witness: the amended claim at the 404 run. -/
theorem C8_witness :
    ((MetricsMiddleware reqC8 notFoundHandler {} {}).2.1).totals =
      [] ++ [("GET", "/api/users", "404")] ∧
    ((MetricsMiddleware reqC8 notFoundHandler {} {}).2.1).durations =
      [] ++ [("GET", "/api/users")] :=
  C8_amended reqC8 notFoundHandler {} {} (writeHeader {} 404) rfl

set_option maxHeartbeats 1000000 in
/-- C2: counterexample — with inbound `X-Request-ID: req-42`, no
`X-Trace-ID`, and tracing disabled, `TracedLogging` stamps the response
header `X-Trace-ID` with the empty pre-resolution value, not with the
freshly generated non-empty trace id it stored in the context. -/
theorem C2_counterexample :
    headerGet runC2.resp "X-Trace-ID" = some "" ∧
    ¬ headerGet runC2.resp "X-Trace-ID" = some (GetTraceID runC2.ctx) ∧
    ¬ GetTraceID runC2.ctx = "" := by
  decide

set_option maxHeartbeats 400000 in
/-- C2 (amended): for every request with inbound `X-Request-ID: req-42`,
no `X-Trace-ID` header, and tracing disabled, the middleware sets the
response header `X-Request-ID` to `req-42`, sets the response header
`X-Trace-ID` to the empty string (not to a fresh identifier), stores a
freshly generated trace id in the correlation context, and the emitted
log event has a `request_id` field equal to `req-42`. -/
theorem C2_amended (req : Request) (g : Gen)
    (hreq : req.headerGetStr "X-Request-ID" = "req-42")
    (htr : req.headerGetStr "X-Trace-ID" = "")
    (hg : (g.supply g.next).take 16 ≠ "") :
    headerGet (resolverHop {} req g).resp "X-Request-ID" = some "req-42" ∧
    headerGet (resolverHop {} req g).resp "X-Trace-ID" = some "" ∧
    GetTraceID (resolverHop {} req g).ctx = (g.supply g.next).take 16 ∧
    GetTraceID (resolverHop {} req g).ctx ≠ "" ∧
    (∃ ev, (resolverHop {} req g).log = [ev] ∧
      effectiveField ev.fields "request_id" = some (.str "req-42")) := by
  have hres : resolvedOtelTraceID {} req = "" := by
    simp [resolvedOtelTraceID, htr]
  have hrid : (tracedCtx {} req g).requestId = some "req-42" := by
    rw [tracedCtx_requestId, extract_requestId, hreq]
    simp
  have h3 : GetTraceID (resolverHop {} req g).ctx =
      (g.supply g.next).take 16 := by
    rw [GetTraceID, resolverHop_ctx, tracedCtx_traceId, hres, hreq]
    rw [extract_traceId_fresh req.ctx "req-42" g (by decide)]
    simp only [Option.getD_some]
  refine ⟨?_, ?_, h3, ?_, ?_⟩
  · rw [resolverHop_resp]
    rw [tracedStamp_empty_requestId]
    simp only [GetRequestID, hrid, Option.getD_some]
  · rw [resolverHop_resp, tracedStamp_empty_traceId, hres]
  · rw [h3]
    exact hg
  · refine ⟨_, resolverHop_log {} req g, ?_⟩
    unfold withFieldsEvent
    rw [effectiveField_append_absent _ _ _ ?_]
    · exact effectiveField_contextFields_requestId (tracedCtx {} req g)
        "req-42" hrid (by decide)
    · intro p hp
      simp only [List.mem_cons, List.not_mem_nil, or_false] at hp
      rcases hp with h | h | h | h | h | h | h | h <;> subst h <;> simp

/-- C2 witness: the amended claim at the concrete scenario inputs. -/
theorem C2_witness :
    headerGet (resolverHop {} reqC2 demoGen).resp "X-Request-ID" =
      some "req-42" ∧
    headerGet (resolverHop {} reqC2 demoGen).resp "X-Trace-ID" =
      some "" ∧
    GetTraceID (resolverHop {} reqC2 demoGen).ctx = "u0" ∧
    GetTraceID (resolverHop {} reqC2 demoGen).ctx ≠ "" ∧
    (∃ ev, (resolverHop {} reqC2 demoGen).log = [ev] ∧
      effectiveField ev.fields "request_id" = some (.str "req-42")) :=
  C2_amended reqC2 demoGen rfl rfl (by decide)

/-- C3: counterexample — with an active span carrying trace id `00ff` and
a non-empty inbound header `X-Trace-ID: hdr-1`, the resolved context
trace id is the span value `00ff`, not the inbound header value the claim
requires. -/
theorem C3_counterexample :
    GetTraceID runC3.ctx = "00ff" ∧
    ¬ GetTraceID runC3.ctx = "hdr-1" := by
  decide

/-- C3 (amended): the precedence is the reverse of the claim: when the
active span has a trace id it wins, and the inbound `X-Trace-ID` header
is used only when the span has none. -/
theorem C3_amended (otel : OtelSpanCtx) (req : Request)
    (next : Ctx → Response → Response × Outcome) (resp : Response)
    (log : List LogEvent) (g : Gen) :
    (otel.traceId ≠ "" →
      GetTraceID (TracedLogging otel req next resp log g).ctx =
        otel.traceId) ∧
    (otel.traceId = "" → req.headerGetStr "X-Trace-ID" ≠ "" →
      GetTraceID (TracedLogging otel req next resp log g).ctx =
        req.headerGetStr "X-Trace-ID") := by
  constructor
  · intro h
    have hres : resolvedOtelTraceID otel req = otel.traceId := by
      simp [resolvedOtelTraceID, h]
    rw [GetTraceID, TracedLogging_ctx, tracedCtx_traceId, hres,
      extract_traceId_keep _ _ _ _ h]
    simp only [Option.getD_some]
  · intro h h2
    have hres : resolvedOtelTraceID otel req =
        req.headerGetStr "X-Trace-ID" := by
      simp [resolvedOtelTraceID, h]
    rw [GetTraceID, TracedLogging_ctx, tracedCtx_traceId, hres,
      extract_traceId_keep _ _ _ _ h2]
    simp only [Option.getD_some]

/-- C3 witness: the amended claim at the concrete run with both an active
span (`00ff`) and an inbound header (`hdr-1`), and at a run with no span
and an inbound header. -/
theorem C3_witness :
    GetTraceID (TracedLogging { traceId := "00ff", spanId := "span1" }
      reqC3 idHandler {} [] demoGen).ctx = "00ff" ∧
    GetTraceID (TracedLogging {} reqC3 idHandler {} [] demoGen).ctx =
      "hdr-1" := by
  constructor
  · exact (C3_amended { traceId := "00ff", spanId := "span1" } reqC3
      idHandler {} [] demoGen).1 (by decide)
  · exact (C3_amended {} reqC3 idHandler {} [] demoGen).2 rfl (by decide)

/-- C5: counterexample — with tracing disabled and no inbound headers,
the first hop stamps an empty `X-Trace-ID`, so the simulated downstream
hop mints a different fresh trace id: the round-trip preserves the
request id but not the trace id. -/
theorem C5_counterexample :
    GetRequestID runC5b.ctx = GetRequestID runC5a.ctx ∧
    GetTraceID runC5a.ctx = "u1" ∧
    GetTraceID runC5b.ctx = "u3" ∧
    ¬ GetTraceID runC5b.ctx = GetTraceID runC5a.ctx := by
  decide

/-- C5 (amended): the round-trip always preserves the request id (for any
supply of non-empty generated identifiers, spans or none, headers or
none), and it preserves the trace id whenever the stamped `X-Trace-ID` of
the first hop is non-empty, i.e. when an active span or a non-empty
inbound header supplied it; the downstream hop here runs with tracing
disabled. -/
theorem C5_amended (otel : OtelSpanCtx) (req : Request) (g : Gen)
    (hg : ∀ n, g.supply n ≠ "") :
    GetRequestID (resolverHop {}
        (downstreamReq (resolverHop otel req g) req)
        (resolverHop otel req g).gen).ctx =
      GetRequestID (resolverHop otel req g).ctx ∧
    (resolvedOtelTraceID otel req ≠ "" →
      GetTraceID (resolverHop {}
          (downstreamReq (resolverHop otel req g) req)
          (resolverHop otel req g).gen).ctx =
        GetTraceID (resolverHop otel req g).ctx) := by
  set rid := if req.headerGetStr "X-Request-ID" = "" then g.supply g.next
    else req.headerGetStr "X-Request-ID" with hdrid
  have hrid1 : (tracedCtx otel req g).requestId = some rid := by
    rw [tracedCtx_requestId, extract_requestId]
  have hridne : rid ≠ "" := by
    rw [hdrid]
    by_cases h : req.headerGetStr "X-Request-ID" = "" <;> simp [h, hg]
  have hh1 : (downstreamReq (resolverHop otel req g) req).headerGetStr
      "X-Request-ID" = rid := by
    rw [downstreamReq_requestId, resolverHop_resp]
    rw [tracedStamp_empty_requestId]
    simp only [GetRequestID, hrid1, Option.getD_some]
  constructor
  · rw [GetRequestID, GetRequestID, resolverHop_ctx, resolverHop_ctx,
      tracedCtx_requestId, tracedCtx_requestId, extract_requestId,
      extract_requestId, hh1]
    simp [hridne]
  · intro htr
    have hh2 : (downstreamReq (resolverHop otel req g) req).headerGetStr
        "X-Trace-ID" = resolvedOtelTraceID otel req := by
      rw [downstreamReq_traceId, resolverHop_resp, tracedStamp_empty_traceId]
      rfl
    have hres2 : resolvedOtelTraceID {}
        (downstreamReq (resolverHop otel req g) req) =
        resolvedOtelTraceID otel req := by
      simp [resolvedOtelTraceID, hh2]
    rw [GetTraceID, GetTraceID, resolverHop_ctx, resolverHop_ctx,
      tracedCtx_traceId, tracedCtx_traceId, hres2,
      extract_traceId_keep _ _ _ _ htr, extract_traceId_keep _ _ _ _ htr]

/-- C5 witness: the amended round-trip at a concrete first hop with an
active span trace id `abcd`. -/
theorem C5_witness :
    GetRequestID (resolverHop {}
        (downstreamReq (resolverHop otelC5 reqC5 constGen) reqC5)
        (resolverHop otelC5 reqC5 constGen).gen).ctx =
      GetRequestID (resolverHop otelC5 reqC5 constGen).ctx ∧
    GetTraceID (resolverHop {}
        (downstreamReq (resolverHop otelC5 reqC5 constGen) reqC5)
        (resolverHop otelC5 reqC5 constGen).gen).ctx =
      GetTraceID (resolverHop otelC5 reqC5 constGen).ctx :=
  ⟨(C5_amended otelC5 reqC5 constGen
      (fun _ => (by decide : ("zz" : String) ≠ ""))).1,
   (C5_amended otelC5 reqC5 constGen
      (fun _ => (by decide : ("zz" : String) ≠ ""))).2 (by decide)⟩

/-- C9: counterexample — a caller-supplied `request_id` field is appended
after the context field and, under last-key-wins JSON object semantics,
shadows it: the context value does not win in the final record. -/
theorem C9_counterexample :
    effectiveField evC9.fields "request_id" = some (.str "evil") ∧
    ¬ effectiveField evC9.fields "request_id" =
      some (.str "ctx-req") := by
  decide

/-- C9 (amended): context fields are emitted before caller-supplied
fields, and duplicates are not removed: when the context holds a
non-empty request id, the first `request_id` occurrence of the record carries
the context value, but a caller-supplied `request_id` also appears later
and its value is the one a last-key-wins JSON consumer sees — the
context value can be shadowed. -/
theorem C9_amended (c : Ctx) (caller : List (String × FieldVal))
    (lv : Level) (msg : String) (v : String) (w : FieldVal)
    (hv : c.requestId = some v) (hne : v ≠ "")
    (hw : effectiveField caller "request_id" = some w) :
    firstField (withFieldsEvent c caller lv msg).fields "request_id" =
      some (FieldVal.str v) ∧
    effectiveField (withFieldsEvent c caller lv msg).fields "request_id" =
      some w := by
  constructor
  · unfold withFieldsEvent
    have hctx : contextFields c = ("request_id", FieldVal.str v) ::
        (ctxField "trace_id" c.traceId ++ ctxField "span_id" c.spanId ++
          ctxField "user_id" c.userId) := by
      simp [contextFields, ctxField, hv, hne]
    rw [hctx]
    simp [firstField]
  · unfold withFieldsEvent
    exact effectiveField_append_present _ _ _ _ hw

/-- C9 witness: the amended claim at the concrete shadowing record. -/
theorem C9_witness :
    firstField evC9.fields "request_id" = some (.str "ctx-req") ∧
    effectiveField evC9.fields "request_id" = some (.str "evil") :=
  C9_amended ctxC9 callerC9 .info "m" "ctx-req" (.str "evil") rfl
    (by decide) (by decide)

end GrafanaLogging
